import Mathlib

/-!
Shallow embedding of the leave-management core of
`vinaykaushik5555/employee_fastapi_mcp_server`.

The database (SQLite via SQLAlchemy) is modelled as lists of rows; floats
(`Float` columns, leave day counts) are modelled as rationals; `date`
columns are modelled as proleptic-Gregorian ordinals (Python's
`date.toordinal`), so `date(2024,1,1)` is the integer 738886; `DateTime`
creation timestamps are modelled by a logical clock on the state.

Python's `date + timedelta(days=x)` only uses the whole-day component of
the timedelta (`timedelta.days`, which is `⌊x⌋` after normalisation), so
adding a fractional number of days to a date advances it by `⌊x⌋` days.
-/

namespace EmployeeLeave

/-- `LeaveTypeEnum` from `app/domain.py`: the four leave categories. -/
inductive LeaveType where
  | casual
  | privilege
  | medical
  | other
deriving DecidableEq, Repr

/-- Wire codes of the categories (`LeaveTypeEnum` values). -/
def LeaveType.value : LeaveType → String
  | .casual => "CL"
  | .privilege => "PL"
  | .medical => "ML"
  | .other => "OTHER"

/-- `DEFAULT_CL` from `app/domain.py`. -/
def DEFAULT_CL : ℚ := 10
/-- `DEFAULT_PL` from `app/domain.py`. -/
def DEFAULT_PL : ℚ := 15
/-- `DEFAULT_ML` from `app/domain.py`. -/
def DEFAULT_ML : ℚ := 90
/-- `DEFAULT_OTHER` from `app/domain.py`. -/
def DEFAULT_OTHER : ℚ := 0

/-- A row of the `employees` table (`EmployeeORM` in `app/models.py`). -/
structure Employee where
  id : String
  username : String
  password : String
  name : String
  email : String
  department : Option String
  is_active : Bool
deriving DecidableEq, Repr

/-- A row of the `leave_balances` table (`LeaveBalanceORM`). -/
structure LeaveBalance where
  employee_id : String
  cl : ℚ
  pl : ℚ
  ml : ℚ
  other : ℚ
deriving DecidableEq, Repr

/-- A row of the `leave_requests` table (`LeaveRequestORM`). -/
structure LeaveRequest where
  id : Nat
  employee_id : String
  leave_type : String
  days : ℚ
  start_date : ℤ
  reason : String
  status : String
  created_at : Nat
deriving DecidableEq, Repr

/-- The whole database, plus the autoincrement counter for request ids and
the logical clock supplying `created_at` timestamps. -/
structure DB where
  employees : List Employee
  balances : List LeaveBalance
  requests : List LeaveRequest
  next_request_id : Nat
  clock : Nat
deriving DecidableEq, Repr

/-- `db.get(EmployeeORM, id)`: primary-key lookup. -/
def findEmployeeById (rows : List Employee) (eid : String) : Option Employee :=
  rows.find? (fun e => e.id == eid)

/-- `query(EmployeeORM).filter(username == u).first()`. -/
def findEmployeeByUsername (rows : List Employee) (u : String) : Option Employee :=
  rows.find? (fun e => e.username == u)

/-- `db.get(LeaveBalanceORM, employee_id)`: primary-key lookup. -/
def findBalance (rows : List LeaveBalance) (eid : String) : Option LeaveBalance :=
  rows.find? (fun b => b.employee_id == eid)

/-- The default balance row created lazily or on employee creation. -/
def defaultBalance (eid : String) : LeaveBalance :=
  { employee_id := eid, cl := DEFAULT_CL, pl := DEFAULT_PL, ml := DEFAULT_ML,
    other := DEFAULT_OTHER }

/-- ORM mutation of the (unique) balance row of `eid`: the first row whose
key matches is replaced by `f` of it. -/
def updateBalanceRow (rows : List LeaveBalance) (eid : String)
    (f : LeaveBalance → LeaveBalance) : List LeaveBalance :=
  match rows with
  | [] => []
  | b :: rest =>
    if b.employee_id == eid then f b :: rest
    else b :: updateBalanceRow rest eid f

/-- `EmployeeCreate` from `app/schemas.py`. -/
structure EmployeeCreate where
  id : String
  username : String
  password : String
  name : String
  email : String
  department : Option String
deriving DecidableEq, Repr

/-- The two `ValueError`s of `EmployeeRepository.create_employee`. -/
inductive CreateError where
  | duplicateId
  | duplicateUsername
deriving DecidableEq, Repr

/-- `EmployeeRepository.create_employee` from `app/repository.py`:
rejects a duplicate id, then a duplicate username; otherwise inserts the
employee row together with a default balance row and commits both. -/
def create_employee (s : DB) (data : EmployeeCreate) :
    Except CreateError Employee × DB :=
  match findEmployeeById s.employees data.id with
  | some _ => (.error .duplicateId, s)
  | none =>
    match findEmployeeByUsername s.employees data.username with
    | some _ => (.error .duplicateUsername, s)
    | none =>
      let employee : Employee :=
        { id := data.id, username := data.username, password := data.password,
          name := data.name, email := data.email,
          department := data.department, is_active := true }
      (.ok employee,
        { s with
          employees := s.employees ++ [employee],
          balances := s.balances ++ [defaultBalance data.id] })

/-- `LeaveRepository.get_or_create_balance`: returns the existing balance
row, or inserts and commits a default one. -/
def get_or_create_balance (s : DB) (eid : String) : LeaveBalance × DB :=
  match findBalance s.balances eid with
  | some b => (b, s)
  | none =>
    let b := defaultBalance eid
    (b, { s with balances := s.balances ++ [b] })

/-- `LeaveRepository._get_available_days`. -/
def _get_available_days (b : LeaveBalance) (lt : LeaveType) : ℚ :=
  match lt with
  | .casual => b.cl
  | .privilege => b.pl
  | .medical => b.ml
  | .other => b.other

/-- `LeaveRepository._deduct_days`. -/
def _deduct_days (b : LeaveBalance) (lt : LeaveType) (days : ℚ) : LeaveBalance :=
  match lt with
  | .casual => { b with cl := b.cl - days }
  | .privilege => { b with pl := b.pl - days }
  | .medical => { b with ml := b.ml - days }
  | .other => { b with other := b.other - days }

/-- The in-place `+=` of `LeaveRepository.credit_leave` on one category. -/
def _credit_days (b : LeaveBalance) (lt : LeaveType) (days : ℚ) : LeaveBalance :=
  match lt with
  | .casual => { b with cl := b.cl + days }
  | .privilege => { b with pl := b.pl + days }
  | .medical => { b with ml := b.ml + days }
  | .other => { b with other := b.other + days }

/-- `LeaveRepository.credit_leave`: get-or-create the balance row, add
`days` to the named category, commit. -/
def credit_leave (s : DB) (eid : String) (lt : LeaveType) (days : ℚ) :
    LeaveBalance × DB :=
  let p := get_or_create_balance s eid
  let s1 := p.2
  let b1 := _credit_days p.1 lt days
  (b1, { s1 with balances := updateBalanceRow s1.balances eid (fun b => _credit_days b lt days) })

/-- The two `ValueError`s of `LeaveRepository.apply_leave`. -/
inductive LeaveError where
  | insufficientBalance
  | overlappingRequest
deriving DecidableEq, Repr

/-- `start_date + timedelta(days=days) - timedelta(days=1)` on a Python
`date`: the timedelta contributes only its whole-day part `⌊days⌋`. -/
def pyEndDate (start : ℤ) (days : ℚ) : ℤ := start + ⌊days⌋ - 1

/-- The overlap test of `LeaveRepository.apply_leave` against one existing
request: `start_date <= existing_end and new_end >= existing_start`. -/
def overlapsB (candStart candEnd : ℤ) (r : LeaveRequest) : Bool :=
  decide (candStart ≤ pyEndDate r.start_date r.days) && decide (candEnd ≥ r.start_date)

/-- `query(LeaveRequestORM).filter(employee_id == eid).all()`. -/
def employeeRequests (rows : List LeaveRequest) (eid : String) : List LeaveRequest :=
  rows.filter (fun r => r.employee_id == eid)

/-- `LeaveRepository.apply_leave`: get-or-create the balance (committed),
reject on insufficient balance, then on overlap with any existing request
of the employee; otherwise deduct, insert the APPROVED request and commit. -/
def apply_leave (s : DB) (eid : String) (lt : LeaveType) (days : ℚ)
    (start_date : ℤ) (reason : String) : Except LeaveError LeaveRequest × DB :=
  let p := get_or_create_balance s eid
  let s1 := p.2
  let available := _get_available_days p.1 lt
  if days > available then
    (.error .insufficientBalance, s1)
  else
    let new_end := pyEndDate start_date days
    let existing := employeeRequests s1.requests eid
    if existing.any (overlapsB start_date new_end) then
      (.error .overlappingRequest, s1)
    else
      let request : LeaveRequest :=
        { id := s1.next_request_id, employee_id := eid,
          leave_type := lt.value, days := days, start_date := start_date,
          reason := reason, status := "APPROVED", created_at := s1.clock }
      (.ok request,
        { s1 with
          balances := updateBalanceRow s1.balances eid (fun b => _deduct_days b lt days),
          requests := s1.requests ++ [request],
          next_request_id := s1.next_request_id + 1,
          clock := s1.clock + 1 })

/-- `LeaveRepository.list_employee_requests`: the employee's requests
ordered by `created_at` descending. -/
def list_employee_requests (s : DB) (eid : String) : List LeaveRequest :=
  List.insertionSort (fun a b => b.created_at ≤ a.created_at)
    (employeeRequests s.requests eid)

/-- `CreditLeaveBody` from `app/schemas.py`: `days` is an unconstrained
float, with no positivity bound. -/
structure CreditLeaveBody where
  leave_type : LeaveType
  days : ℚ
  note : Option String
deriving DecidableEq, Repr

/-- Outcome of a REST endpoint: an HTTP 403 from the identity check, or an
`ApiResponse`-style envelope (here just its success flag). -/
inductive RestResult where
  | forbidden
  | response (success : Bool)
deriving DecidableEq, Repr

/-- `credit_leave_rest` from `app/api.py`: after the own-account check it
invokes `LeaveRepository.credit_leave` unconditionally and returns a
success envelope; there is no validation of `body.days`. -/
def credit_leave_rest (s : DB) (current_employee_id employee_id : String)
    (body : CreditLeaveBody) : RestResult × DB :=
  if current_employee_id ≠ employee_id then
    (.forbidden, s)
  else
    let p := credit_leave s employee_id body.leave_type body.days
    (.response true, p.2)

/-- The balance row the repository would act on: the stored row if one
exists, else the lazily created default. -/
def effectiveBalance (s : DB) (eid : String) : LeaveBalance :=
  match findBalance s.balances eid with
  | some b => b
  | none => defaultBalance eid

/-- Available days of a category as the repository sees them. -/
def availOf (s : DB) (eid : String) (lt : LeaveType) : ℚ :=
  _get_available_days (effectiveBalance s eid) lt

/-- Default allocation of one category. -/
def defaultAllocation (lt : LeaveType) : ℚ :=
  match lt with
  | .casual => DEFAULT_CL
  | .privilege => DEFAULT_PL
  | .medical => DEFAULT_ML
  | .other => DEFAULT_OTHER

/-! ### Lookup and update lemmas -/

lemma defaultBalance_id (eid : String) : (defaultBalance eid).employee_id = eid := rfl

lemma findBalance_append_of_none {rows : List LeaveBalance} {eid : String}
    (b : LeaveBalance) (h : findBalance rows eid = none) (hb : b.employee_id = eid) :
    findBalance (rows ++ [b]) eid = some b := by
  unfold findBalance at h ⊢
  rw [List.find?_append, h]
  simp [hb]

lemma findBalance_append_of_ne {rows : List LeaveBalance} {e : String}
    (b : LeaveBalance) (hb : b.employee_id ≠ e) :
    findBalance (rows ++ [b]) e = findBalance rows e := by
  unfold findBalance
  rw [List.find?_append]
  have : List.find? (fun x => x.employee_id == e) [b] = none := by simp [hb]
  rw [this]
  cases List.find? (fun x => x.employee_id == e) rows <;> rfl

lemma findBalance_update_self (rows : List LeaveBalance) (eid : String)
    (f : LeaveBalance → LeaveBalance)
    (hf : ∀ b, (f b).employee_id = b.employee_id) :
    findBalance (updateBalanceRow rows eid f) eid = (findBalance rows eid).map f := by
  induction rows with
  | nil => rfl
  | cons b rest ih =>
    by_cases hb : b.employee_id = eid
    · simp [updateBalanceRow, findBalance, hb, hf]
    · simp only [updateBalanceRow, findBalance] at ih ⊢
      rw [if_neg (by simp [hb])]
      rw [List.find?_cons_of_neg _ (by simp [hf, hb]),
          List.find?_cons_of_neg _ (by simp [hb])]
      exact ih

lemma findBalance_update_of_ne (rows : List LeaveBalance) (eid e : String)
    (f : LeaveBalance → LeaveBalance) (he : e ≠ eid)
    (hf : ∀ b, (f b).employee_id = b.employee_id) :
    findBalance (updateBalanceRow rows eid f) e = findBalance rows e := by
  induction rows with
  | nil => rfl
  | cons b rest ih =>
    by_cases hb : b.employee_id = eid
    · simp only [updateBalanceRow, findBalance] at ih ⊢
      rw [if_pos (by simp [hb])]
      rw [List.find?_cons_of_neg _ (by simp [hf, hb]; exact fun h => he h.symm),
          List.find?_cons_of_neg _ (by simp [hb]; exact fun h => he h.symm)]
    · simp only [updateBalanceRow, findBalance] at ih ⊢
      rw [if_neg (by simp [hb])]
      by_cases hbe : b.employee_id = e
      · rw [List.find?_cons_of_pos _ (by simp [hbe]),
            List.find?_cons_of_pos _ (by simp [hbe])]
      · rw [List.find?_cons_of_neg _ (by simp [hbe]),
            List.find?_cons_of_neg _ (by simp [hbe])]
        exact ih

/-! ### `get_or_create_balance` lemmas -/

lemma gocb_fst (s : DB) (eid : String) :
    (get_or_create_balance s eid).1 = effectiveBalance s eid := by
  unfold get_or_create_balance effectiveBalance
  cases findBalance s.balances eid <;> rfl

lemma gocb_of_some {s : DB} {eid : String} {b : LeaveBalance}
    (h : findBalance s.balances eid = some b) :
    get_or_create_balance s eid = (b, s) := by
  unfold get_or_create_balance
  rw [h]

lemma effectiveBalance_employee_id (s : DB) (eid : String) :
    (effectiveBalance s eid).employee_id = eid := by
  unfold effectiveBalance
  cases h : findBalance s.balances eid with
  | none => rfl
  | some b =>
    have := List.find?_some h
    simpa using this

lemma gocb_find (s : DB) (eid : String) :
    findBalance (get_or_create_balance s eid).2.balances eid
      = some (effectiveBalance s eid) := by
  unfold get_or_create_balance effectiveBalance
  cases h : findBalance s.balances eid with
  | none => exact findBalance_append_of_none _ h rfl
  | some b => exact h

lemma gocb_find_of_ne (s : DB) (eid e : String) (he : e ≠ eid) :
    findBalance (get_or_create_balance s eid).2.balances e
      = findBalance s.balances e := by
  unfold get_or_create_balance
  cases h : findBalance s.balances eid with
  | none => exact findBalance_append_of_ne _ (fun hc => he hc.symm)
  | some b => rfl

lemma gocb_requests (s : DB) (eid : String) :
    (get_or_create_balance s eid).2.requests = s.requests := by
  unfold get_or_create_balance
  cases findBalance s.balances eid <;> rfl

lemma gocb_employees (s : DB) (eid : String) :
    (get_or_create_balance s eid).2.employees = s.employees := by
  unfold get_or_create_balance
  cases findBalance s.balances eid <;> rfl

lemma gocb_next_id (s : DB) (eid : String) :
    (get_or_create_balance s eid).2.next_request_id = s.next_request_id := by
  unfold get_or_create_balance
  cases findBalance s.balances eid <;> rfl

lemma gocb_clock (s : DB) (eid : String) :
    (get_or_create_balance s eid).2.clock = s.clock := by
  unfold get_or_create_balance
  cases findBalance s.balances eid <;> rfl

lemma gocb_effectiveBalance (s : DB) (eid : String) :
    effectiveBalance (get_or_create_balance s eid).2 eid = effectiveBalance s eid := by
  unfold effectiveBalance
  rw [gocb_find]
  rfl

/-! ### Category field lemmas -/

lemma _credit_days_employee_id (b : LeaveBalance) (lt : LeaveType) (d : ℚ) :
    (_credit_days b lt d).employee_id = b.employee_id := by
  cases lt <;> rfl

lemma _deduct_days_employee_id (b : LeaveBalance) (lt : LeaveType) (d : ℚ) :
    (_deduct_days b lt d).employee_id = b.employee_id := by
  cases lt <;> rfl

lemma avail_credit_same (b : LeaveBalance) (lt : LeaveType) (d : ℚ) :
    _get_available_days (_credit_days b lt d) lt = _get_available_days b lt + d := by
  cases lt <;> rfl

lemma avail_credit_of_ne (b : LeaveBalance) (lt lt' : LeaveType) (d : ℚ)
    (h : lt' ≠ lt) :
    _get_available_days (_credit_days b lt d) lt' = _get_available_days b lt' := by
  cases lt <;> cases lt' <;> first | rfl | exact absurd rfl h

lemma avail_deduct_same (b : LeaveBalance) (lt : LeaveType) (d : ℚ) :
    _get_available_days (_deduct_days b lt d) lt = _get_available_days b lt - d := by
  cases lt <;> rfl

lemma avail_deduct_of_ne (b : LeaveBalance) (lt lt' : LeaveType) (d : ℚ)
    (h : lt' ≠ lt) :
    _get_available_days (_deduct_days b lt d) lt' = _get_available_days b lt' := by
  cases lt <;> cases lt' <;> first | rfl | exact absurd rfl h

/-! ### `credit_leave` lemmas -/

lemma credit_leave_effectiveBalance (s : DB) (eid : String) (lt : LeaveType) (d : ℚ) :
    effectiveBalance (credit_leave s eid lt d).2 eid
      = _credit_days (effectiveBalance s eid) lt d := by
  unfold credit_leave
  show effectiveBalance
    { (get_or_create_balance s eid).2 with
      balances := updateBalanceRow (get_or_create_balance s eid).2.balances eid
        (fun b => _credit_days b lt d) } eid = _
  unfold effectiveBalance
  rw [findBalance_update_self _ _ _ (fun b => _credit_days_employee_id b lt d)]
  rw [gocb_find]
  rfl

lemma credit_leave_availOf (s : DB) (eid : String) (lt : LeaveType) (d : ℚ) :
    availOf (credit_leave s eid lt d).2 eid lt = availOf s eid lt + d := by
  unfold availOf
  rw [credit_leave_effectiveBalance, avail_credit_same]

lemma credit_leave_availOf_of_ne (s : DB) (eid : String) (lt lt' : LeaveType) (d : ℚ)
    (h : lt' ≠ lt) :
    availOf (credit_leave s eid lt d).2 eid lt' = availOf s eid lt' := by
  unfold availOf
  rw [credit_leave_effectiveBalance, avail_credit_of_ne _ _ _ _ h]

lemma credit_leave_find_of_ne (s : DB) (eid e : String) (lt : LeaveType) (d : ℚ)
    (he : e ≠ eid) :
    findBalance (credit_leave s eid lt d).2.balances e = findBalance s.balances e := by
  unfold credit_leave
  show findBalance (updateBalanceRow (get_or_create_balance s eid).2.balances eid
    (fun b => _credit_days b lt d)) e = _
  rw [findBalance_update_of_ne _ _ _ _ he (fun b => _credit_days_employee_id b lt d)]
  exact gocb_find_of_ne s eid e he

lemma credit_leave_requests (s : DB) (eid : String) (lt : LeaveType) (d : ℚ) :
    (credit_leave s eid lt d).2.requests = s.requests := by
  unfold credit_leave
  show ({ (get_or_create_balance s eid).2 with
      balances := updateBalanceRow (get_or_create_balance s eid).2.balances eid
        (fun b => _credit_days b lt d) } : DB).requests = _
  exact gocb_requests s eid

/-! ### `apply_leave` case lemmas -/

/-- The request row inserted by a successful `apply_leave` call. -/
def insertedRequest (s : DB) (eid : String) (lt : LeaveType) (days : ℚ)
    (st : ℤ) (reason : String) : LeaveRequest :=
  { id := s.next_request_id, employee_id := eid, leave_type := lt.value,
    days := days, start_date := st, reason := reason, status := "APPROVED",
    created_at := s.clock }

lemma apply_leave_of_insufficient (s : DB) (eid : String) (lt : LeaveType)
    (days : ℚ) (st : ℤ) (reason : String) (h : days > availOf s eid lt) :
    apply_leave s eid lt days st reason
      = (.error .insufficientBalance, (get_or_create_balance s eid).2) := by
  have h' : days > _get_available_days (effectiveBalance s eid) lt := h
  simp only [apply_leave, gocb_fst]
  rw [if_pos h']

lemma apply_leave_of_overlap (s : DB) (eid : String) (lt : LeaveType)
    (days : ℚ) (st : ℤ) (reason : String)
    (h1 : ¬ days > availOf s eid lt)
    (h2 : (employeeRequests s.requests eid).any (overlapsB st (pyEndDate st days)) = true) :
    apply_leave s eid lt days st reason
      = (.error .overlappingRequest, (get_or_create_balance s eid).2) := by
  have h1' : ¬ days > _get_available_days (effectiveBalance s eid) lt := h1
  simp only [apply_leave, gocb_fst, gocb_requests]
  rw [if_neg h1', if_pos h2]

lemma apply_leave_of_ok (s : DB) (eid : String) (lt : LeaveType)
    (days : ℚ) (st : ℤ) (reason : String)
    (h1 : ¬ days > availOf s eid lt)
    (h2 : (employeeRequests s.requests eid).any (overlapsB st (pyEndDate st days)) = false) :
    apply_leave s eid lt days st reason
      = (.ok (insertedRequest s eid lt days st reason),
         { employees := s.employees,
           balances := updateBalanceRow (get_or_create_balance s eid).2.balances eid
             (fun b => _deduct_days b lt days),
           requests := s.requests ++ [insertedRequest s eid lt days st reason],
           next_request_id := s.next_request_id + 1,
           clock := s.clock + 1 }) := by
  have h1' : ¬ days > _get_available_days (effectiveBalance s eid) lt := h1
  simp only [apply_leave, gocb_fst, gocb_requests, gocb_next_id, gocb_clock,
    gocb_employees, insertedRequest]
  rw [if_neg h1', if_neg (by rw [h2]; exact Bool.false_ne_true)]

lemma apply_leave_error_snd {s : DB} {eid : String} {lt : LeaveType}
    {days : ℚ} {st : ℤ} {reason : String} {e : LeaveError}
    (h : (apply_leave s eid lt days st reason).1 = .error e) :
    (apply_leave s eid lt days st reason).2 = (get_or_create_balance s eid).2 := by
  by_cases h1 : days > availOf s eid lt
  · rw [apply_leave_of_insufficient s eid lt days st reason h1]
  · by_cases h2 : (employeeRequests s.requests eid).any
        (overlapsB st (pyEndDate st days)) = true
    · rw [apply_leave_of_overlap s eid lt days st reason h1 h2]
    · rw [apply_leave_of_ok s eid lt days st reason h1
        (Bool.eq_false_iff.mpr h2)] at h
      exact absurd h (by simp)

lemma apply_leave_insufficient_iff (s : DB) (eid : String) (lt : LeaveType)
    (days : ℚ) (st : ℤ) (reason : String) :
    (apply_leave s eid lt days st reason).1 = .error .insufficientBalance
      ↔ days > availOf s eid lt := by
  constructor
  · intro h
    by_contra h1
    by_cases h2 : (employeeRequests s.requests eid).any
        (overlapsB st (pyEndDate st days)) = true
    · rw [apply_leave_of_overlap s eid lt days st reason h1 h2] at h
      exact absurd h (by simp)
    · rw [apply_leave_of_ok s eid lt days st reason h1
        (Bool.eq_false_iff.mpr h2)] at h
      exact absurd h (by simp)
  · intro h
    rw [apply_leave_of_insufficient s eid lt days st reason h]

lemma apply_leave_overlap_iff (s : DB) (eid : String) (lt : LeaveType)
    (days : ℚ) (st : ℤ) (reason : String) (h1 : ¬ days > availOf s eid lt) :
    (apply_leave s eid lt days st reason).1 = .error .overlappingRequest
      ↔ (employeeRequests s.requests eid).any (overlapsB st (pyEndDate st days)) = true := by
  constructor
  · intro h
    by_contra h2
    rw [apply_leave_of_ok s eid lt days st reason h1
      (Bool.eq_false_iff.mpr h2)] at h
    exact absurd h (by simp)
  · intro h2
    rw [apply_leave_of_overlap s eid lt days st reason h1 h2]

lemma apply_leave_ok_effectiveBalance {s : DB} {eid : String} {lt : LeaveType}
    {days : ℚ} {st : ℤ} {reason : String} {req : LeaveRequest}
    (h : (apply_leave s eid lt days st reason).1 = .ok req) :
    effectiveBalance (apply_leave s eid lt days st reason).2 eid
      = _deduct_days (effectiveBalance s eid) lt days := by
  by_cases h1 : days > availOf s eid lt
  · rw [apply_leave_of_insufficient s eid lt days st reason h1] at h
    exact absurd h (by simp)
  · by_cases h2 : (employeeRequests s.requests eid).any
        (overlapsB st (pyEndDate st days)) = true
    · rw [apply_leave_of_overlap s eid lt days st reason h1 h2] at h
      exact absurd h (by simp)
    · rw [apply_leave_of_ok s eid lt days st reason h1 (Bool.eq_false_iff.mpr h2)]
      unfold effectiveBalance
      show (match findBalance (updateBalanceRow (get_or_create_balance s eid).2.balances
        eid (fun b => _deduct_days b lt days)) eid with
        | some b => b | none => defaultBalance eid) = _
      rw [findBalance_update_self _ _ _ (fun b => _deduct_days_employee_id b lt days)]
      rw [gocb_find]
      rfl

lemma apply_leave_ok_availOf {s : DB} {eid : String} {lt : LeaveType}
    {days : ℚ} {st : ℤ} {reason : String} {req : LeaveRequest}
    (h : (apply_leave s eid lt days st reason).1 = .ok req) :
    availOf (apply_leave s eid lt days st reason).2 eid lt
      = availOf s eid lt - days := by
  unfold availOf
  rw [apply_leave_ok_effectiveBalance h, avail_deduct_same]

lemma apply_leave_ok_availOf_of_ne {s : DB} {eid : String} {lt : LeaveType}
    {days : ℚ} {st : ℤ} {reason : String} {req : LeaveRequest} (lt' : LeaveType)
    (h : (apply_leave s eid lt days st reason).1 = .ok req) (hlt : lt' ≠ lt) :
    availOf (apply_leave s eid lt days st reason).2 eid lt'
      = availOf s eid lt' := by
  unfold availOf
  rw [apply_leave_ok_effectiveBalance h, avail_deduct_of_ne _ _ _ _ hlt]

lemma apply_leave_ok_find_of_ne {s : DB} {eid : String} {lt : LeaveType}
    {days : ℚ} {st : ℤ} {reason : String} {req : LeaveRequest} (e : String)
    (h : (apply_leave s eid lt days st reason).1 = .ok req) (he : e ≠ eid) :
    findBalance (apply_leave s eid lt days st reason).2.balances e
      = findBalance s.balances e := by
  by_cases h1 : days > availOf s eid lt
  · rw [apply_leave_of_insufficient s eid lt days st reason h1] at h
    exact absurd h (by simp)
  · by_cases h2 : (employeeRequests s.requests eid).any
        (overlapsB st (pyEndDate st days)) = true
    · rw [apply_leave_of_overlap s eid lt days st reason h1 h2] at h
      exact absurd h (by simp)
    · rw [apply_leave_of_ok s eid lt days st reason h1 (Bool.eq_false_iff.mpr h2)]
      show findBalance (updateBalanceRow (get_or_create_balance s eid).2.balances
        eid (fun b => _deduct_days b lt days)) e = _
      rw [findBalance_update_of_ne _ _ _ _ he (fun b => _deduct_days_employee_id b lt days)]
      exact gocb_find_of_ne s eid e he

/-! ### Sequences of ledger operations on one category (for conservation) -/

/-- One call of the sequence: a manual credit, or a leave application. -/
inductive LedgerOp where
  | creditOp (days : ℚ)
  | applyOp (days : ℚ) (start : ℤ) (reason : String)

/-- Run a sequence of calls for one employee on one category, each call
threading the committed database state. -/
def runOps (eid : String) (lt : LeaveType) : DB → List LedgerOp → DB
  | s, [] => s
  | s, .creditOp d :: rest => runOps eid lt (credit_leave s eid lt d).2 rest
  | s, .applyOp d st r :: rest => runOps eid lt (apply_leave s eid lt d st r).2 rest

/-- Every `apply_leave` call in the sequence succeeds. -/
def opsOk (eid : String) (lt : LeaveType) : DB → List LedgerOp → Bool
  | _, [] => true
  | s, .creditOp d :: rest => opsOk eid lt (credit_leave s eid lt d).2 rest
  | s, .applyOp d st r :: rest =>
    match apply_leave s eid lt d st r with
    | (.ok _, s2) => opsOk eid lt s2 rest
    | (.error _, _) => false

/-- Total days credited by the sequence. -/
def creditSum : List LedgerOp → ℚ
  | [] => 0
  | .creditOp d :: rest => d + creditSum rest
  | .applyOp _ _ _ :: rest => creditSum rest

/-- Total days applied (approved) by the sequence. -/
def approvedSum : List LedgerOp → ℚ
  | [] => 0
  | .creditOp _ :: rest => approvedSum rest
  | .applyOp d _ _ :: rest => d + approvedSum rest

lemma runOps_availOf (eid : String) (lt : LeaveType) :
    ∀ (ops : List LedgerOp) (s : DB), opsOk eid lt s ops = true →
      availOf (runOps eid lt s ops) eid lt
        = availOf s eid lt + creditSum ops - approvedSum ops := by
  intro ops
  induction ops with
  | nil =>
    intro s _
    simp [runOps, creditSum, approvedSum]
  | cons op rest ih =>
    intro s h
    cases op with
    | creditOp d =>
      rw [opsOk] at h
      rw [runOps, ih _ h, credit_leave_availOf, creditSum, approvedSum]
      ring
    | applyOp d st r =>
      rw [opsOk] at h
      rw [runOps]
      rcases happ : apply_leave s eid lt d st r with ⟨res, s2⟩
      cases res with
      | error e => simp [happ] at h
      | ok req =>
        have h' : opsOk eid lt s2 rest = true := by
          rw [happ] at h
          exact h
        have hfst : (apply_leave s eid lt d st r).1 = Except.ok req := by rw [happ]
        have havail : availOf s2 eid lt = availOf s eid lt - d := by
          have hh := apply_leave_ok_availOf hfst
          rwa [happ] at hh
        show availOf (runOps eid lt s2 rest) eid lt
          = availOf s eid lt + creditSum (LedgerOp.applyOp d st r :: rest)
            - approvedSum (LedgerOp.applyOp d st r :: rest)
        rw [ih _ h', havail, creditSum, approvedSum]
        ring

/-! ### Employee-table lookup lemmas (for `create_employee`) -/

lemma findEmployeeById_append_self {rows : List Employee} {i : String}
    (e : Employee) (h : findEmployeeById rows i = none) (he : e.id = i) :
    findEmployeeById (rows ++ [e]) i = some e := by
  unfold findEmployeeById at h ⊢
  rw [List.find?_append, h]
  simp [he]

lemma availOf_of_none {s : DB} {eid : String} (lt : LeaveType)
    (h : findBalance s.balances eid = none) :
    availOf s eid lt = defaultAllocation lt := by
  unfold availOf effectiveBalance
  rw [h]
  cases lt <;> rfl

/-- The employee row inserted by `create_employee` (active, with the
submitted fields). -/
def newEmployee (data : EmployeeCreate) : Employee :=
  { id := data.id, username := data.username, password := data.password,
    name := data.name, email := data.email, department := data.department,
    is_active := true }

/-! ## Claim theorems -/

/-- C1: if `apply_leave` fails (insufficient balance or overlap) for an
employee that has a balance row, the failed call neither debits any balance
field nor inserts a request row: the balance table and the request table
are unchanged. -/
theorem apply_leave_failed_has_no_side_effects
    (s : DB) (eid : String) (lt : LeaveType) (days : ℚ) (st : ℤ) (reason : String)
    (b : LeaveBalance) (e : LeaveError)
    (hb : findBalance s.balances eid = some b)
    (hf : (apply_leave s eid lt days st reason).1 = .error e) :
    (apply_leave s eid lt days st reason).2.balances = s.balances ∧
    (apply_leave s eid lt days st reason).2.requests = s.requests := by
  have h2 := apply_leave_error_snd hf
  rw [gocb_of_some hb] at h2
  rw [h2]
  exact ⟨rfl, rfl⟩

/-- C2: the insufficiency test is strictly `days > available`: a request
for exactly the available amount (with no overlap) is approved, while any
request for more fails with the insufficient-balance error. -/
theorem apply_leave_insufficiency_boundary
    (s : DB) (eid : String) (lt : LeaveType) (days : ℚ) (st : ℤ) (reason : String) :
    (days > availOf s eid lt →
      (apply_leave s eid lt days st reason).1 = .error .insufficientBalance) ∧
    (days = availOf s eid lt →
      (employeeRequests s.requests eid).any (overlapsB st (pyEndDate st days)) = false →
      (apply_leave s eid lt days st reason).1
        = .ok (insertedRequest s eid lt days st reason)) := by
  constructor
  · intro h
    rw [apply_leave_of_insufficient s eid lt days st reason h]
  · intro heq hov
    rw [apply_leave_of_ok s eid lt days st reason
      (by rw [heq]; exact lt_irrefl _) hov]

/-- C3: for whole-number day counts (candidate and all existing requests),
a request occupies the inclusive interval `[start, start + days - 1]` and
the candidate is rejected with the overlap error iff
`candidate.start ≤ existing.end ∧ candidate.end ≥ existing.start` for some
existing request of the employee. -/
theorem apply_leave_overlap_characterization
    (s : DB) (eid : String) (lt : LeaveType) (n : ℕ) (st : ℤ) (reason : String)
    (hns : ¬ (n:ℚ) > availOf s eid lt)
    (hwh : ∀ r ∈ employeeRequests s.requests eid, ∃ m : ℕ, r.days = (m:ℚ)) :
    (apply_leave s eid lt (n:ℚ) st reason).1 = .error .overlappingRequest ↔
      ∃ r ∈ employeeRequests s.requests eid, ∃ m : ℕ, r.days = (m:ℚ) ∧
        st ≤ r.start_date + (m:ℤ) - 1 ∧ st + (n:ℤ) - 1 ≥ r.start_date := by
  rw [apply_leave_overlap_iff s eid lt _ st reason hns, List.any_eq_true]
  constructor
  · rintro ⟨r, hr, hov⟩
    obtain ⟨m, hm⟩ := hwh r hr
    simp only [overlapsB, pyEndDate, hm, Int.floor_natCast, Bool.and_eq_true,
      decide_eq_true_eq, ge_iff_le] at hov
    exact ⟨r, hr, m, hm, hov.1, hov.2⟩
  · rintro ⟨r, hr, m, hm, hle1, hle2⟩
    refine ⟨r, hr, ?_⟩
    simp only [overlapsB, pyEndDate, hm, Int.floor_natCast, Bool.and_eq_true,
      decide_eq_true_eq, ge_iff_le]
    exact ⟨hle1, hle2⟩

/-- C5: starting from no balance row (the lazily created default), after
any sequence of credits and successful applies on one category, the final
available amount equals default + sum of credits − sum of approved days. -/
theorem leave_balance_conservation
    (s : DB) (eid : String) (lt : LeaveType) (ops : List LedgerOp)
    (h0 : findBalance s.balances eid = none)
    (hok : opsOk eid lt s ops = true) :
    availOf (runOps eid lt s ops) eid lt
      = defaultAllocation lt + creditSum ops - approvedSum ops := by
  rw [runOps_availOf eid lt ops s hok, availOf_of_none lt h0]

/-- C6: duplicate id fails with the duplicate-id error and duplicate
username with the duplicate-username error, in both cases leaving the
state untouched; a successful creation inserts the employee row together
with its default balance row. -/
theorem create_employee_uniqueness_and_default_balance
    (s : DB) (data : EmployeeCreate) :
    ((findEmployeeById s.employees data.id).isSome = true →
       create_employee s data = (.error .duplicateId, s)) ∧
    (findEmployeeById s.employees data.id = none →
       (findEmployeeByUsername s.employees data.username).isSome = true →
       create_employee s data = (.error .duplicateUsername, s)) ∧
    (findEmployeeById s.employees data.id = none →
       findEmployeeByUsername s.employees data.username = none →
       findBalance s.balances data.id = none →
       ∃ emp, emp.id = data.id ∧ emp.username = data.username ∧
         (create_employee s data).1 = .ok emp ∧
         findEmployeeById (create_employee s data).2.employees data.id = some emp ∧
         findBalance (create_employee s data).2.balances data.id
           = some (defaultBalance data.id)) := by
  refine ⟨?_, ?_, ?_⟩
  · intro h
    obtain ⟨e0, he0⟩ := Option.isSome_iff_exists.mp h
    simp [create_employee, he0]
  · intro hid h
    obtain ⟨e1, he1⟩ := Option.isSome_iff_exists.mp h
    simp [create_employee, hid, he1]
  · intro hid hun hbal
    refine ⟨newEmployee data, rfl, rfl, ?_, ?_, ?_⟩
    · simp [create_employee, newEmployee, hid, hun]
    · have hc : (create_employee s data).2.employees
          = s.employees ++ [newEmployee data] := by
        simp [create_employee, newEmployee, hid, hun]
      rw [hc]
      exact findEmployeeById_append_self _ hid rfl
    · have hc : (create_employee s data).2.balances
          = s.balances ++ [defaultBalance data.id] := by
        simp [create_employee, hid, hun]
      rw [hc]
      exact findBalance_append_of_none _ hbal rfl

/-- C8: `list_employee_requests` returns exactly the employee's requests
sorted by creation timestamp descending; with three requests created at
`t1 < t2 < t3` the listing is `[t3, t2, t1]`. -/
theorem list_requests_newest_first (s : DB) (eid : String) :
    (list_employee_requests s eid).Perm (employeeRequests s.requests eid) ∧
    List.Sorted (fun a b : LeaveRequest => b.created_at ≤ a.created_at)
      (list_employee_requests s eid) ∧
    (∀ r1 r2 r3 : LeaveRequest, employeeRequests s.requests eid = [r1, r2, r3] →
      r1.created_at < r2.created_at → r2.created_at < r3.created_at →
      list_employee_requests s eid = [r3, r2, r1]) := by
  refine ⟨List.perm_insertionSort _ _, ?_, ?_⟩
  · haveI h1 : IsTotal LeaveRequest (fun a b => b.created_at ≤ a.created_at) :=
      ⟨fun a b => Nat.le_total _ _⟩
    haveI h2 : IsTrans LeaveRequest (fun a b => b.created_at ≤ a.created_at) :=
      ⟨fun _ _ _ hab hbc => le_trans hbc hab⟩
    exact List.sorted_insertionSort _ _
  · intro r1 r2 r3 hfil h12 h23
    have h13 : r1.created_at < r3.created_at := lt_trans h12 h23
    unfold list_employee_requests
    rw [hfil]
    simp [List.insertionSort, List.orderedInsert,
      not_le.mpr h12, not_le.mpr h23, not_le.mpr h13]

/-- C9: when the employee has no balance row, a failed `apply_leave` still
leaves behind the committed default balance row created lazily before the
failure was raised. -/
theorem apply_leave_failure_commits_lazy_default_balance
    (s : DB) (eid : String) (lt : LeaveType) (days : ℚ) (st : ℤ) (reason : String)
    (e : LeaveError)
    (hb : findBalance s.balances eid = none)
    (hf : (apply_leave s eid lt days st reason).1 = .error e) :
    findBalance (apply_leave s eid lt days st reason).2.balances eid
      = some (defaultBalance eid) := by
  rw [apply_leave_error_snd hf]
  have h := gocb_find s eid
  rwa [show effectiveBalance s eid = defaultBalance eid from by
    unfold effectiveBalance; rw [hb]] at h

/-- C10: a credit, and the debit of a successful apply, change only the
named category of the named employee: the other categories of that
employee and every other employee's balance row are unchanged. -/
theorem leave_ops_touch_only_named_category
    (s : DB) (eid : String) (lt : LeaveType) (d : ℚ) :
    ((∀ lt', lt' ≠ lt →
        availOf (credit_leave s eid lt d).2 eid lt' = availOf s eid lt') ∧
     (∀ e, e ≠ eid →
        findBalance (credit_leave s eid lt d).2.balances e
          = findBalance s.balances e)) ∧
    (∀ st reason req, (apply_leave s eid lt d st reason).1 = .ok req →
      (∀ lt', lt' ≠ lt →
        availOf (apply_leave s eid lt d st reason).2 eid lt' = availOf s eid lt') ∧
      (∀ e, e ≠ eid →
        findBalance (apply_leave s eid lt d st reason).2.balances e
          = findBalance s.balances e)) :=
  ⟨⟨fun lt' h => credit_leave_availOf_of_ne s eid lt lt' d h,
    fun e he => credit_leave_find_of_ne s eid e lt d he⟩,
   fun _ _ _ hok =>
    ⟨fun lt' h => apply_leave_ok_availOf_of_ne lt' hok h,
     fun e he => apply_leave_ok_find_of_ne e hok he⟩⟩

/-- C4 (amended): for fractional day counts strictly between 0 and 1 the
date arithmetic truncates the timedelta to whole days, so the computed
inclusive end is `start - 1` (the day before the start); such a request
blocks exactly the candidates that start on or before `start - 1` and end
on or after `start`, not the whole start day itself. -/
theorem fractional_days_interval_ends_before_start
    (f : ℚ) (hf0 : 0 < f) (hf1 : f < 1) (r : LeaveRequest) (hr : r.days = f)
    (cs ce : ℤ) :
    pyEndDate r.start_date r.days = r.start_date - 1 ∧
    (overlapsB cs ce r = true ↔ cs ≤ r.start_date - 1 ∧ r.start_date ≤ ce) := by
  have hfl : ⌊f⌋ = 0 := Int.floor_eq_zero_iff.mpr ⟨le_of_lt hf0, hf1⟩
  constructor
  · unfold pyEndDate
    rw [hr, hfl]
    ring
  · simp only [overlapsB, pyEndDate, hr, hfl, Bool.and_eq_true,
      decide_eq_true_eq, ge_iff_le]
    omega

/-- C7 (amended): the REST boundary performs no validation of `days` for
credit-leave: after the own-account check, any call (including
`days ≤ 0`) invokes the ledger credit and succeeds, changing the named
category by exactly `days`. -/
theorem credit_leave_rest_no_days_validation
    (s : DB) (cur eid : String) (body : CreditLeaveBody) (h : cur = eid) :
    (credit_leave_rest s cur eid body).1 = .response true ∧
    availOf (credit_leave_rest s cur eid body).2 eid body.leave_type
      = availOf s eid body.leave_type + body.days := by
  subst h
  constructor
  · simp [credit_leave_rest]
  · have h2 : (credit_leave_rest s cur cur body).2
        = (credit_leave s cur body.leave_type body.days).2 := by
      simp [credit_leave_rest]
    rw [h2, credit_leave_availOf]

/-! ## Concrete sample states, counterexamples and witnesses -/

/-- Sample state: one employee balance row with the default allocation. -/
def dbC1 : DB :=
  { employees := [], balances := [defaultBalance "E1"], requests := [],
    next_request_id := 1, clock := 0 }

/-- Witness for C1: an insufficient request (11 casual days against 10
available) leaves the balance and request tables unchanged. -/
theorem apply_leave_failed_has_no_side_effects_witness :
    (apply_leave dbC1 "E1" LeaveType.casual 11 738886 "x").2.balances
      = [defaultBalance "E1"] ∧
    (apply_leave dbC1 "E1" LeaveType.casual 11 738886 "x").2.requests = [] :=
  apply_leave_failed_has_no_side_effects dbC1 "E1" LeaveType.casual 11 738886 "x"
    (defaultBalance "E1") .insufficientBalance
    (by simp [dbC1, findBalance, defaultBalance])
    (by rw [apply_leave_of_insufficient _ _ _ _ _ _ (by norm_num [dbC1, availOf,
      effectiveBalance, findBalance, defaultBalance, _get_available_days, DEFAULT_CL])])

/-- Sample state: empty database. -/
def dbC2 : DB :=
  { employees := [], balances := [], requests := [], next_request_id := 1, clock := 0 }

/-- Witness for C2: with the default 10.0 casual days, applying exactly
10 succeeds and applying 10.01 fails with the insufficiency error. -/
theorem apply_leave_insufficiency_boundary_witness :
    (apply_leave dbC2 "E1" LeaveType.casual 10 738886 "w").1
      = .ok (insertedRequest dbC2 "E1" LeaveType.casual 10 738886 "w") ∧
    (apply_leave dbC2 "E1" LeaveType.casual (1001/100) 738886 "w").1
      = .error .insufficientBalance :=
  ⟨(apply_leave_insufficiency_boundary dbC2 "E1" LeaveType.casual 10 738886 "w").2
      (by norm_num [dbC2, availOf, effectiveBalance, findBalance, defaultBalance,
        _get_available_days, DEFAULT_CL]) rfl,
   (apply_leave_insufficiency_boundary dbC2 "E1" LeaveType.casual (1001/100) 738886 "w").1
      (by norm_num [dbC2, availOf, effectiveBalance, findBalance, defaultBalance,
        _get_available_days, DEFAULT_CL])⟩

/-- Existing request: 2024-01-01 (ordinal 738886) for 3 days, covering
01-01..01-03. -/
def reqC3 : LeaveRequest :=
  { id := 1, employee_id := "E1", leave_type := "CL", days := 3,
    start_date := 738886, reason := "holiday", status := "APPROVED",
    created_at := 0 }

/-- Sample state holding `reqC3`. -/
def dbC3 : DB :=
  { employees := [], balances := [], requests := [reqC3],
    next_request_id := 2, clock := 1 }

/-- Witness for C3: against the 3-day request at 2024-01-01, a 1-day
candidate at 2024-01-03 (ordinal 738888) is rejected as overlapping, and
a 1-day candidate at 2024-01-04 is accepted. -/
theorem apply_leave_overlap_characterization_witness :
    (apply_leave dbC3 "E1" LeaveType.casual ((1:ℕ):ℚ) 738888 "x").1
      = .error .overlappingRequest ∧
    (apply_leave dbC3 "E1" LeaveType.casual ((1:ℕ):ℚ) 738889 "x").1
      = .ok (insertedRequest dbC3 "E1" LeaveType.casual ((1:ℕ):ℚ) 738889 "x") := by
  constructor
  · exact (apply_leave_overlap_characterization dbC3 "E1" LeaveType.casual 1 738888 "x"
      (by norm_num [dbC3, availOf, effectiveBalance, findBalance, defaultBalance,
        _get_available_days, DEFAULT_CL])
      (by intro r hr
          simp only [dbC3, employeeRequests, reqC3, List.filter, beq_self_eq_true,
            List.mem_singleton] at hr
          subst hr
          exact ⟨3, by norm_num [reqC3]⟩)).mpr
      ⟨reqC3, by simp [dbC3, employeeRequests, reqC3], 3, by norm_num [reqC3],
        by norm_num [reqC3], by norm_num [reqC3]⟩
  · rw [apply_leave_of_ok _ _ _ _ _ _
      (by norm_num [dbC3, availOf, effectiveBalance, findBalance, defaultBalance,
        _get_available_days, DEFAULT_CL])
      (by norm_num [dbC3, employeeRequests, reqC3, overlapsB, pyEndDate])]

/-- Existing half-day request at 2024-01-01 (ordinal 738886). -/
def reqC4 : LeaveRequest :=
  { id := 1, employee_id := "E1", leave_type := "CL", days := 1/2,
    start_date := 738886, reason := "half day", status := "APPROVED",
    created_at := 0 }

/-- Sample state holding `reqC4`. -/
def dbC4 : DB :=
  { employees := [], balances := [defaultBalance "E1"], requests := [reqC4],
    next_request_id := 2, clock := 1 }

/-- C4 counterexample: the half-day request's computed inclusive end is
the day before its start (738885), and a later 1-day request on the very
day of the half-day request — whose interval plainly contains that day —
is accepted, not rejected as overlapping. -/
theorem half_day_request_does_not_block_its_day :
    pyEndDate 738886 (1/2 : ℚ) = 738885 ∧
    (apply_leave dbC4 "E1" LeaveType.casual 1 738886 "same day").1
      = .ok (insertedRequest dbC4 "E1" LeaveType.casual 1 738886 "same day") := by
  constructor
  · norm_num [pyEndDate]
  · rw [apply_leave_of_ok _ _ _ _ _ _
      (by norm_num [dbC4, availOf, effectiveBalance, findBalance, defaultBalance,
        _get_available_days, DEFAULT_CL])
      (by norm_num [dbC4, employeeRequests, reqC4, overlapsB, pyEndDate])]

/-- Witness for the amended C4: instantiated at the half-day request. -/
theorem fractional_days_interval_ends_before_start_witness :
    pyEndDate reqC4.start_date reqC4.days = reqC4.start_date - 1 ∧
    (overlapsB 738886 738886 reqC4 = true ↔
      738886 ≤ reqC4.start_date - 1 ∧ reqC4.start_date ≤ 738886) :=
  fractional_days_interval_ends_before_start (1/2) (by norm_num) (by norm_num)
    reqC4 rfl 738886 738886

/-- Sample state: empty database. -/
def dbC5 : DB :=
  { employees := [], balances := [], requests := [], next_request_id := 1, clock := 0 }

/-- Sequence for the conservation witness: credit 5, then apply 3. -/
def opsC5 : List LedgerOp := [.creditOp 5, .applyOp 3 738886 "trip"]

/-- Witness for C5: 10 (default) + 5 (credit) − 3 (approved) = 12. -/
theorem leave_balance_conservation_witness :
    opsOk "E1" LeaveType.casual dbC5 opsC5 = true ∧
    availOf (runOps "E1" LeaveType.casual dbC5 opsC5) "E1" LeaveType.casual = 12 := by
  have ha : availOf (credit_leave dbC5 "E1" LeaveType.casual 5).2 "E1" LeaveType.casual
      = 15 := by
    rw [credit_leave_availOf]
    norm_num [dbC5, availOf, effectiveBalance, findBalance, defaultBalance,
      _get_available_days, DEFAULT_CL]
  have hov : (employeeRequests (credit_leave dbC5 "E1" LeaveType.casual 5).2.requests
      "E1").any (overlapsB 738886 (pyEndDate 738886 3)) = false := by
    rw [credit_leave_requests]
    rfl
  have happ := apply_leave_of_ok (credit_leave dbC5 "E1" LeaveType.casual 5).2 "E1"
    LeaveType.casual 3 738886 "trip" (by rw [ha]; norm_num) hov
  have hok : opsOk "E1" LeaveType.casual dbC5 opsC5 = true := by
    show opsOk "E1" LeaveType.casual (credit_leave dbC5 "E1" LeaveType.casual 5).2
      [LedgerOp.applyOp 3 738886 "trip"] = true
    rw [opsOk, happ]
    rfl
  refine ⟨hok, ?_⟩
  rw [leave_balance_conservation dbC5 "E1" LeaveType.casual opsC5 rfl hok]
  norm_num [defaultAllocation, DEFAULT_CL, creditSum, approvedSum, opsC5]

/-- The first employee of the duplicate-username scenario. -/
def empA : Employee :=
  { id := "A", username := "alice", password := "pw", name := "Alice",
    email := "alice@x", department := none, is_active := true }

/-- Sample state holding employee `empA` and their balance. -/
def dbC6 : DB :=
  { employees := [empA], balances := [defaultBalance "A"], requests := [],
    next_request_id := 1, clock := 0 }

/-- Creation request reusing the username `alice` under a fresh id. -/
def dataB : EmployeeCreate :=
  { id := "B", username := "alice", password := "pw2", name := "Bob",
    email := "bob@x", department := none }

/-- Creation request with fresh id and username. -/
def dataC : EmployeeCreate :=
  { id := "C", username := "carol", password := "pw3", name := "Carol",
    email := "carol@x", department := none }

/-- Witness for C6: creating `B` with the taken username `alice` fails
with the duplicate-username error and changes nothing; creating `C`
succeeds and `C`'s default balance row exists. -/
theorem create_employee_uniqueness_and_default_balance_witness :
    create_employee dbC6 dataB = (.error .duplicateUsername, dbC6) ∧
    findBalance (create_employee dbC6 dataC).2.balances "C"
      = some (defaultBalance "C") := by
  constructor
  · exact (create_employee_uniqueness_and_default_balance dbC6 dataB).2.1
      (by simp [dbC6, empA, findEmployeeById, dataB])
      (by simp [dbC6, empA, findEmployeeByUsername, dataB])
  · obtain ⟨emp, hid, hun, hok, hfind, hbal⟩ :=
      (create_employee_uniqueness_and_default_balance dbC6 dataC).2.2
        (by simp [dbC6, empA, findEmployeeById, dataC])
        (by simp [dbC6, empA, findEmployeeByUsername, dataC])
        (by simp [dbC6, findBalance, defaultBalance, dataC])
    exact hbal

/-- Request created first (oldest). -/
def q1 : LeaveRequest :=
  { id := 1, employee_id := "E1", leave_type := "CL", days := 1,
    start_date := 738886, reason := "a", status := "APPROVED", created_at := 0 }

/-- Request created second. -/
def q2 : LeaveRequest :=
  { id := 2, employee_id := "E1", leave_type := "PL", days := 2,
    start_date := 738900, reason := "b", status := "APPROVED", created_at := 1 }

/-- Request created third (newest). -/
def q3 : LeaveRequest :=
  { id := 3, employee_id := "E1", leave_type := "ML", days := 1,
    start_date := 738920, reason := "c", status := "APPROVED", created_at := 2 }

/-- Sample state with three requests created at times 0 < 1 < 2. -/
def dbC8 : DB :=
  { employees := [], balances := [], requests := [q1, q2, q3],
    next_request_id := 4, clock := 3 }

/-- Witness for C8: the three requests list newest-first. -/
theorem list_requests_newest_first_witness :
    list_employee_requests dbC8 "E1" = [q3, q2, q1] :=
  (list_requests_newest_first dbC8 "E1").2.2 q1 q2 q3
    (by simp [dbC8, employeeRequests, q1, q2, q3])
    (by norm_num [q1, q2]) (by norm_num [q2, q3])

/-- Sample state: empty database. -/
def dbC9 : DB :=
  { employees := [], balances := [], requests := [], next_request_id := 1, clock := 0 }

/-- Witness for C9: an employee with no balance row fails an 11-day
casual request, yet the default balance row is left committed. -/
theorem apply_leave_failure_commits_lazy_default_balance_witness :
    findBalance (apply_leave dbC9 "E1" LeaveType.casual 11 738886 "x").2.balances "E1"
      = some (defaultBalance "E1") :=
  apply_leave_failure_commits_lazy_default_balance dbC9 "E1" LeaveType.casual 11
    738886 "x" .insufficientBalance rfl
    (by rw [apply_leave_of_insufficient _ _ _ _ _ _ (by norm_num [dbC9, availOf,
      effectiveBalance, findBalance, defaultBalance, _get_available_days, DEFAULT_CL])])

/-- Sample state: default balance rows for two employees. -/
def dbC10 : DB :=
  { employees := [], balances := [defaultBalance "E1", defaultBalance "E2"],
    requests := [], next_request_id := 1, clock := 0 }

/-- Witness for C10: crediting and applying casual days for `E1` leaves
`E1`'s other categories and `E2`'s balance row untouched. -/
theorem leave_ops_touch_only_named_category_witness :
    availOf (credit_leave dbC10 "E1" LeaveType.casual 5).2 "E1" LeaveType.privilege
      = availOf dbC10 "E1" LeaveType.privilege ∧
    findBalance (credit_leave dbC10 "E1" LeaveType.casual 5).2.balances "E2"
      = findBalance dbC10.balances "E2" ∧
    availOf (apply_leave dbC10 "E1" LeaveType.casual 5 738886 "t").2 "E1" LeaveType.medical
      = availOf dbC10 "E1" LeaveType.medical ∧
    findBalance (apply_leave dbC10 "E1" LeaveType.casual 5 738886 "t").2.balances "E2"
      = findBalance dbC10.balances "E2" := by
  have h := leave_ops_touch_only_named_category dbC10 "E1" LeaveType.casual 5
  have hok : (apply_leave dbC10 "E1" LeaveType.casual 5 738886 "t").1
      = .ok (insertedRequest dbC10 "E1" LeaveType.casual 5 738886 "t") := by
    rw [apply_leave_of_ok dbC10 "E1" LeaveType.casual 5 738886 "t"
      (by norm_num [dbC10, availOf, effectiveBalance, findBalance, defaultBalance,
        _get_available_days, DEFAULT_CL]) rfl]
  exact ⟨h.1.1 LeaveType.privilege (by decide),
         h.1.2 "E2" (by decide),
         (h.2 738886 "t" _ hok).1 LeaveType.medical (by decide),
         (h.2 738886 "t" _ hok).2 "E2" (by decide)⟩

/-- Sample state: one default balance row for `E1`. -/
def dbC7 : DB :=
  { employees := [], balances := [defaultBalance "E1"], requests := [],
    next_request_id := 1, clock := 0 }

/-- A credit-leave body with non-positive days. -/
def bodyC7 : CreditLeaveBody :=
  { leave_type := LeaveType.casual, days := -1, note := none }

/-- C7 counterexample: a credit request with `days = -1 ≤ 0` on the
authenticated REST path is not rejected by any validation: the call
succeeds and the ledger credit runs, moving the casual balance from 10
to 9. -/
theorem credit_rest_accepts_nonpositive_days :
    bodyC7.days ≤ 0 ∧
    (credit_leave_rest dbC7 "E1" "E1" bodyC7).1 = .response true ∧
    availOf dbC7 "E1" LeaveType.casual = 10 ∧
    availOf (credit_leave_rest dbC7 "E1" "E1" bodyC7).2 "E1" LeaveType.casual = 9 := by
  refine ⟨by norm_num [bodyC7], by simp [credit_leave_rest],
    by norm_num [dbC7, availOf, effectiveBalance, findBalance, defaultBalance,
      _get_available_days, DEFAULT_CL], ?_⟩
  have h2 : (credit_leave_rest dbC7 "E1" "E1" bodyC7).2
      = (credit_leave dbC7 "E1" bodyC7.leave_type bodyC7.days).2 := by
    simp [credit_leave_rest]
  rw [h2]
  show availOf (credit_leave dbC7 "E1" LeaveType.casual (-1)).2 "E1" LeaveType.casual = 9
  rw [credit_leave_availOf]
  norm_num [dbC7, availOf, effectiveBalance, findBalance, defaultBalance,
    _get_available_days, DEFAULT_CL]

/-- Sample state: empty database. -/
def dbC7b : DB :=
  { employees := [], balances := [], requests := [], next_request_id := 1, clock := 0 }

/-- Witness for the amended C7: a −2-day medical credit goes through and
shifts the balance by −2. -/
theorem credit_leave_rest_no_days_validation_witness :
    (credit_leave_rest dbC7b "E" "E" ⟨LeaveType.medical, -2, none⟩).1
      = .response true ∧
    availOf (credit_leave_rest dbC7b "E" "E" ⟨LeaveType.medical, -2, none⟩).2 "E"
        LeaveType.medical
      = availOf dbC7b "E" LeaveType.medical + (-2) :=
  credit_leave_rest_no_days_validation dbC7b "E" "E" ⟨LeaveType.medical, -2, none⟩ rfl

end EmployeeLeave
